import Mathlib

/-!
Shallow embedding of the audiochrono pipeline (src/app.py) and verification
of its specification claims.

The physics solver `calculate_physics` (src/app.py lines 13-50) is embedded
over the real numbers: Python floats become `ℝ`, `math.sqrt` becomes
`Real.sqrt`, `math.exp` becomes `Real.exp`, `math.pi` becomes `Real.pi`.
The upload-handler pairing logic (lines 81-88), the history append with
`round(·, n)` (lines 112-121), the CSV export of the stored history
(lines 132-138), and the clear-history button (lines 148-151) are embedded
as list/record operations.  Python's `round(x, n)` is embedded as
`roundTo`; Python rounds ties to even while `round` on `ℝ` rounds ties up,
a difference that is irrelevant at every value appearing below.
-/

namespace AudioChrono

/-- Air density, `rho = 1.225` (src/app.py line 17). -/
def rho : ℝ := 1.225

/-- Sphere drag coefficient, `Cd = 0.47` (line 18). -/
def Cd : ℝ := 0.47

/-- BB radius in metres, `radius = 0.003` (line 19). -/
def radius : ℝ := 0.003

/-- Cross-sectional area, `area = math.pi * radius**2` (line 20). -/
noncomputable def area : ℝ := Real.pi * radius ^ 2

/-- Ballistic drag constant, `k = 0.5 * rho * Cd * area` (line 35). -/
noncomputable def kDrag : ℝ := 0.5 * rho * Cd * area

/-- Speed of sound at ambient temperature in Celsius,
`v_s = 331.4 * math.sqrt(1 + t_env / 273.15)` (line 24). -/
noncomputable def vSound (t_env : ℝ) : ℝ := 331.4 * Real.sqrt (1 + t_env / 273.15)

/-- The physics solver `calculate_physics(dt_total, s, t_env, mass_gram)`
(src/app.py lines 13-50): mass is converted to kg, the sound return time
`s / v_s` is subtracted from the measured total delta time, a non-positive
flight time returns the `(0, 0, 0)` sentinel, and otherwise the
drag-integrated muzzle velocity, kinetic energy and average velocity are
returned as `(v0_fps, joules, v_avg_fps)`. -/
noncomputable def calculate_physics (dt_total s t_env mass_gram : ℝ) : ℝ × ℝ × ℝ :=
  let m := mass_gram / 1000
  let v_s := vSound t_env
  let t_sound_return := s / v_s
  let t_flight := dt_total - t_sound_return
  if t_flight ≤ 0 then (0, 0, 0)
  else
    let v0_m_s := (m * (Real.exp (kDrag * s / m) - 1)) / (kDrag * t_flight)
    (v0_m_s * 3.28084, 0.5 * m * v0_m_s ^ 2, (s / t_flight) * 3.28084)

/-- Partiality-tracking refinement of `calculate_physics`: `none` marks an
input on which the Python source raises an uncaught exception.
`math.sqrt` of a negative argument raises `ValueError`; a division whose
divisor is zero raises `ZeroDivisionError` (the divisors in the source are
`v_s` at line 27, `m` at line 39 inside `k * s / m`, and `k * t_flight`
at line 39).  The `except OverflowError` branch (lines 49-50) never fires
over the reals; the sentinel branch at line 30 precedes the divisions by
`m` and by `k * t_flight`. -/
noncomputable def calcPhysicsChecked (dt_total s t_env mass_gram : ℝ) :
    Option (ℝ × ℝ × ℝ) :=
  if 1 + t_env / 273.15 < 0 then none
  else
    let v_s := vSound t_env
    if v_s = 0 then none
    else
      let m := mass_gram / 1000
      let t_flight := dt_total - s / v_s
      if t_flight ≤ 0 then some (0, 0, 0)
      else if m = 0 then none
      else if kDrag * t_flight = 0 then none
      else
        let v0_m_s := (m * (Real.exp (kDrag * s / m) - 1)) / (kDrag * t_flight)
        some (v0_m_s * 3.28084, 0.5 * m * v0_m_s ^ 2, (s / t_flight) * 3.28084)

/-- The pairing stage of the upload handler (src/app.py lines 81-85): when at
least two onset times were detected, only the first two are used, as the
single pair `(times[0], times[1])`; otherwise no pair is formed.  There is
no loop over the remaining events. -/
def pairShots {α : Type} (times : List α) : List (α × α) :=
  match times with
  | t_shot :: t_impact :: _ => [(t_shot, t_impact)]
  | _ => []

/-- The delta times handed to the solver by the upload handler
(src/app.py lines 85-88): `dt_total = t_impact - t_shot` for each formed
pair, with no further filtering before `calculate_physics` is called. -/
def solverCalls (times : List ℝ) : List ℝ :=
  (pairShots times).map (fun p => p.2 - p.1)

section Helpers

lemma kDrag_pos : 0 < kDrag := by
  have h : (0 : ℝ) < Real.pi := Real.pi_pos
  unfold kDrag area rho Cd radius
  positivity

lemma vSound_pos {t_env : ℝ} (h : -273.15 < t_env) : 0 < vSound t_env := by
  unfold vSound
  have harg : (0 : ℝ) < 1 + t_env / 273.15 := by
    have : (-273.15 : ℝ) / 273.15 < t_env / 273.15 := by
      apply div_lt_div_of_pos_right h; norm_num
    nlinarith [this]
  have := Real.sqrt_pos.2 harg
  nlinarith [this]

lemma vSound_ge_base {t_env : ℝ} (h : 0 ≤ t_env) : 331.4 ≤ vSound t_env := by
  unfold vSound
  have h1 : (1 : ℝ) ≤ Real.sqrt (1 + t_env / 273.15) := by
    rw [Real.le_sqrt' one_pos]
    have : (0 : ℝ) ≤ t_env / 273.15 := by positivity
    nlinarith
  nlinarith [h1]

lemma vSound_le_of_le {t_env : ℝ} (h : t_env ≤ 819.45) :
    vSound t_env ≤ 662.8 := by
  unfold vSound
  have harg : 1 + t_env / 273.15 ≤ 4 := by
    have : t_env / 273.15 ≤ 819.45 / 273.15 := by
      apply div_le_div_of_nonneg_right h (by norm_num)
    have h3 : (819.45 : ℝ) / 273.15 = 3 := by norm_num
    linarith [this, h3.le]
  have h2 : Real.sqrt (1 + t_env / 273.15) ≤ 2 := by
    calc Real.sqrt (1 + t_env / 273.15) ≤ Real.sqrt 4 := Real.sqrt_le_sqrt harg
    _ = 2 := by
        rw [show (4 : ℝ) = 2 ^ 2 by norm_num, Real.sqrt_sq (by norm_num)]
  nlinarith [Real.sqrt_nonneg (1 + t_env / 273.15), h2]

/-- Unfolds the solver on inputs with positive flight time. -/
lemma calculate_physics_pos {dt_total s t_env mass_gram : ℝ}
    (h : 0 < dt_total - s / vSound t_env) :
    calculate_physics dt_total s t_env mass_gram =
      ((mass_gram / 1000 * (Real.exp (kDrag * s / (mass_gram / 1000)) - 1)) /
          (kDrag * (dt_total - s / vSound t_env)) * 3.28084,
       0.5 * (mass_gram / 1000) *
          ((mass_gram / 1000 * (Real.exp (kDrag * s / (mass_gram / 1000)) - 1)) /
            (kDrag * (dt_total - s / vSound t_env))) ^ 2,
       (s / (dt_total - s / vSound t_env)) * 3.28084) := by
  unfold calculate_physics
  rw [if_neg (not_le.2 h)]

/-- Unfolds the solver on inputs with non-positive flight time. -/
lemma calculate_physics_nonpos {dt_total s t_env mass_gram : ℝ}
    (h : dt_total - s / vSound t_env ≤ 0) :
    calculate_physics dt_total s t_env mass_gram = (0, 0, 0) := by
  unfold calculate_physics
  rw [if_pos h]

end Helpers

/-- Python's `round(x, d)`: round to `d` decimal places.  (Python rounds
ties to even; `round` on `ℝ` rounds ties up — the difference matters only
at exact ties, none of which occur below.) -/
noncomputable def roundTo (d : ℕ) (x : ℝ) : ℝ := (round (x * 10 ^ d) : ℤ) / 10 ^ d

/-- One saved history row (src/app.py lines 114-121): a timestamp, the
session distance and BB mass, and the three solver outputs. -/
structure ShotRecord where
  waktu : ℕ
  jarak : ℝ
  bb : ℝ
  v0 : ℝ
  energy : ℝ
  vavg : ℝ

/-- Construction of the dict appended to the history (src/app.py
lines 114-121) from the in-scope values: `v0` and `v_avg` are stored via
`round(·, 1)` and `energy` via `round(·, 2)`. -/
noncomputable def mkRow (waktu : ℕ) (jarak bb v0 energy vavg : ℝ) : ShotRecord :=
  ⟨waktu, jarak, bb, roundTo 1 v0, roundTo 2 energy, roundTo 1 vavg⟩

/-- The record the save button appends for a given config and measured
delta time: `mkRow` applied to the outputs of `calculate_physics`
(src/app.py lines 88 and 112-121). -/
noncomputable def mkRecord (waktu : ℕ) (dist massa suhu dt : ℝ) : ShotRecord :=
  mkRow waktu dist massa (calculate_physics dt dist suhu massa).1
    (calculate_physics dt dist suhu massa).2.1 (calculate_physics dt dist suhu massa).2.2

/-- CSV export (src/app.py lines 132-138) writes the stored history rows
as they are; one output row per stored record. -/
def exportRows (history : List ShotRecord) : List ShotRecord := history

/-- Clear-history button (src/app.py line 150): `st.session_state['history'] = []`. -/
def clearHistory (_history : List ShotRecord) : List ShotRecord := []

/-- Reachable session-history states.  The history starts empty (line 54);
the save button appends `mkRecord` for the current sidebar config — distance
`≥ 1.0` (line 62), mass from the selectbox list (line 63), temperature from
the 10-40 slider (line 64) — and a positive measured delta time; the clear
button empties the history (line 150). -/
inductive Reachable : List ShotRecord → Prop
  | init : Reachable []
  | save (h : List ShotRecord) (ts : ℕ) (dist massa suhu dt : ℝ)
      (hdist : 1 ≤ dist)
      (hmassa : massa = 0.12 ∨ massa = 0.20 ∨ massa = 0.25 ∨ massa = 0.28 ∨ massa = 0.30)
      (hsuhu : 10 ≤ suhu ∧ suhu ≤ 40) (hdt : 0 < dt) :
      Reachable h → Reachable (h ++ [mkRecord ts dist massa suhu dt])
  | clear (h : List ShotRecord) : Reachable h → Reachable []

/-- Modelled from the spec: the source has no `summary()`; §4.4 specifies
`summary()` as `{ count, mean_v0_fps, stddev_v0_fps }` over the current
records, the mean being the arithmetic mean of the stored muzzle
velocities. -/
noncomputable def meanV0 (l : List ℝ) : ℝ := l.sum / l.length

/-- Modelled from the spec: the population standard deviation of the stored
muzzle velocities, the `stddev_v0_fps` field of §4.4's `summary()`. -/
noncomputable def stddevV0 (l : List ℝ) : ℝ :=
  Real.sqrt ((l.map (fun x => (x - meanV0 l) ^ 2)).sum / l.length)

/-- Modelled from the spec: §4.4's `summary()` as
`(count, mean_v0_fps, stddev_v0_fps)` over the history's stored `v0` values. -/
noncomputable def summary (history : List ShotRecord) : ℕ × ℝ × ℝ :=
  (history.length, meanV0 (history.map ShotRecord.v0),
    stddevV0 (history.map ShotRecord.v0))

lemma roundTo_err (d : ℕ) (x : ℝ) : |roundTo d x - x| ≤ 1 / (2 * 10 ^ d) := by
  unfold roundTo
  have h10 : (0 : ℝ) < 10 ^ d := by positivity
  have hr : (round (x * 10 ^ d) : ℝ) / 10 ^ d - x =
      ((round (x * 10 ^ d) : ℝ) - x * 10 ^ d) / 10 ^ d := by
    field_simp
    ring
  rw [hr, abs_div, abs_of_pos h10]
  have h := abs_sub_round (x * 10 ^ d)
  rw [abs_sub_comm] at h
  calc |(round (x * 10 ^ d) : ℝ) - x * 10 ^ d| / 10 ^ d ≤ (1 / 2) / 10 ^ d :=
        (div_le_div_iff_of_pos_right h10).2 h
    _ = 1 / (2 * 10 ^ d) := by rw [div_div]

/-- C1: with positive mass and distance and flight time above the floor,
the solver returns the drag-model muzzle velocity
`v0 = (m · (exp(k·s/m) − 1)) / (k · t_flight)` in m/s times `3.28084` fps,
the kinetic energy `0.5 · m · v0²` (v0 in m/s), and the average velocity
`(s / t_flight) · 3.28084` fps, where `v_s = 331.4·√(1 + T/273.15)`,
`k = 0.5 · 1.225 · 0.47 · π · 0.003²` and `m = mass_g/1000`. -/
theorem C1_solver_formulas (dt_total s t_env mass_gram : ℝ)
    (_hm : 0 < mass_gram) (_hs : 0 < s)
    (hf : 0 < dt_total - s / vSound t_env) :
    kDrag = 0.5 * 1.225 * 0.47 * (Real.pi * 0.003 ^ 2) ∧
    vSound t_env = 331.4 * Real.sqrt (1 + t_env / 273.15) ∧
    calculate_physics dt_total s t_env mass_gram =
      ((mass_gram / 1000 * (Real.exp (kDrag * s / (mass_gram / 1000)) - 1)) /
          (kDrag * (dt_total - s / vSound t_env)) * 3.28084,
       0.5 * (mass_gram / 1000) *
          ((mass_gram / 1000 * (Real.exp (kDrag * s / (mass_gram / 1000)) - 1)) /
            (kDrag * (dt_total - s / vSound t_env))) ^ 2,
       (s / (dt_total - s / vSound t_env)) * 3.28084) :=
  ⟨rfl, rfl, calculate_physics_pos hf⟩

/-- Witness for C1 at `distance = 10 m`, `T = 28 °C`, `mass = 0.20 g`,
`delta_t_total = 0.05 s` (spec §8, scenario A). -/
theorem C1_solver_formulas_witness :
    kDrag = 0.5 * 1.225 * 0.47 * (Real.pi * 0.003 ^ 2) ∧
    vSound 28 = 331.4 * Real.sqrt (1 + 28 / 273.15) ∧
    calculate_physics 0.05 10 28 0.2 =
      ((0.2 / 1000 * (Real.exp (kDrag * 10 / (0.2 / 1000)) - 1)) /
          (kDrag * (0.05 - 10 / vSound 28)) * 3.28084,
       0.5 * (0.2 / 1000) *
          ((0.2 / 1000 * (Real.exp (kDrag * 10 / (0.2 / 1000)) - 1)) /
            (kDrag * (0.05 - 10 / vSound 28))) ^ 2,
       (10 / (0.05 - 10 / vSound 28)) * 3.28084) := by
  have hbase : (331.4 : ℝ) ≤ vSound 28 := vSound_ge_base (by norm_num)
  have hpos : (0 : ℝ) < vSound 28 := vSound_pos (by norm_num)
  have h1 : (10 : ℝ) / vSound 28 ≤ 10 / 331.4 :=
    div_le_div_of_nonneg_left (by norm_num) (by norm_num) hbase
  have h2 : (10 : ℝ) / 331.4 < 0.05 := by norm_num
  exact C1_solver_formulas 0.05 10 28 0.2 (by norm_num) (by norm_num) (by linarith)

/-- C2 counterexample: at `T = 0 °C` the speed of sound is exactly `331.4`,
so with `distance = 3.314 m` the sound return time is exactly `0.01 s`; the
input `delta_t_total = 0.015` satisfies the claim's hypothesis
`delta_t_total ≤ distance / v_s + 0.01`, yet the solver does not return the
`(0,0,0)` sentinel: the code's floor is `t_flight ≤ 0`, not `0.01`. -/
theorem C2_counterexample :
    (0.015 : ℝ) ≤ 3.314 / vSound 0 + 0.01 ∧
      calculate_physics 0.015 3.314 0 0.2 ≠ (0, 0, 0) := by
  have hv : vSound 0 = 331.4 := by
    unfold vSound
    norm_num
  have hflight : (0 : ℝ) < 0.015 - 3.314 / vSound 0 := by
    rw [hv]; norm_num
  constructor
  · rw [hv]; norm_num
  · rw [calculate_physics_pos hflight]
    have hm : (0 : ℝ) < 0.2 / 1000 := by norm_num
    have harg : 0 < kDrag * 3.314 / (0.2 / 1000) :=
      div_pos (mul_pos kDrag_pos (by norm_num)) hm
    have hexp : 1 < Real.exp (kDrag * 3.314 / (0.2 / 1000)) :=
      Real.one_lt_exp_iff.2 harg
    have hnum : 0 < 0.2 / 1000 * (Real.exp (kDrag * 3.314 / (0.2 / 1000)) - 1) :=
      mul_pos hm (by linarith)
    have hden : 0 < kDrag * (0.015 - 3.314 / vSound 0) := mul_pos kDrag_pos hflight
    have hv0 : 0 < (0.2 / 1000 * (Real.exp (kDrag * 3.314 / (0.2 / 1000)) - 1)) /
        (kDrag * (0.015 - 3.314 / vSound 0)) * 3.28084 :=
      mul_pos (div_pos hnum hden) (by norm_num)
    intro hcontra
    rw [Prod.mk.injEq, Prod.mk.injEq] at hcontra
    exact absurd hcontra.1 (ne_of_gt hv0)

/-- C2 (amended): the code's flight-time floor is `0`, not `0.01`: the
solver returns the `(0,0,0)` sentinel exactly when
`delta_t_total ≤ distance / v_s`, i.e. when `t_flight ≤ 0`. -/
theorem C2_sentinel_floor_zero (dt_total s t_env mass_gram : ℝ)
    (h : dt_total ≤ s / vSound t_env) :
    calculate_physics dt_total s t_env mass_gram = (0, 0, 0) :=
  calculate_physics_nonpos (by linarith)

/-- Witness for the amended C2 (spec §8, scenario B:
`delta_t_total = 0.02 < t_sound` at 10 m, 28 °C). -/
theorem C2_sentinel_floor_zero_witness :
    calculate_physics 0.02 10 28 0.2 = (0, 0, 0) := by
  have hpos : (0 : ℝ) < vSound 28 := vSound_pos (by norm_num)
  have hle : vSound 28 ≤ 500 := by
    unfold vSound
    have harg : (1 : ℝ) + 28 / 273.15 ≤ 2.25 := by norm_num
    have hs2 : Real.sqrt (1 + 28 / 273.15) ≤ 1.5 := by
      calc Real.sqrt (1 + 28 / 273.15) ≤ Real.sqrt 2.25 := Real.sqrt_le_sqrt harg
        _ = 1.5 := by
            rw [show (2.25 : ℝ) = 1.5 ^ 2 by norm_num, Real.sqrt_sq (by norm_num)]
    nlinarith [Real.sqrt_nonneg ((1 : ℝ) + 28 / 273.15)]
  have h1 : (10 : ℝ) / 500 ≤ 10 / vSound 28 :=
    div_le_div_of_nonneg_left (by norm_num) hpos hle
  have h2 : (0.02 : ℝ) ≤ 10 / 500 := by norm_num
  exact C2_sentinel_floor_zero 0.02 10 28 0.2 (by linarith)

/-- C3 counterexample: on four detected onsets the handler forms one
candidate, not `floor(4/2) = 2`. -/
theorem C3_counterexample :
    (pairShots ([0, 1, 2, 3] : List ℕ)).length ≠ ([0, 1, 2, 3] : List ℕ).length / 2 := by
  decide

/-- C3 (amended): the handler pairs only the first two detected events:
it produces `(events[0], events[1])` when at least two events exist and
nothing otherwise — `min(floor(N/2), 1)` candidates, all later events
discarded. -/
theorem C3_first_pair_only {α : Type} (times : List α) :
    pairShots times = (times.zip times.tail).take 1 ∧
      (pairShots times).length = min (times.length / 2) 1 := by
  match times with
  | [] => exact ⟨rfl, by simp [pairShots]⟩
  | [a] => exact ⟨rfl, by simp [pairShots]⟩
  | a :: b :: rest =>
    refine ⟨by simp [pairShots], ?_⟩
    have h1 : (pairShots (a :: b :: rest)).length = 1 := rfl
    have h2 : (a :: b :: rest).length = rest.length + 2 := by simp
    rw [h1, h2]
    omega

/-- C4 counterexample: a pair with `delta_t = 2 s`, far outside the claimed
window `[0.02, 1.0]`, is nevertheless passed to the solver. -/
theorem C4_counterexample :
    (2 : ℝ) ∈ solverCalls [0, 2] ∧ ¬((0.02 : ℝ) ≤ 2 ∧ (2 : ℝ) ≤ 1) := by
  constructor
  · norm_num [solverCalls, pairShots]
  · norm_num

/-- C4 (amended): the handler applies no `delta_t` window filter at all:
whenever at least two onsets are detected, the first pair's
`delta_t = times[1] − times[0]` reaches the solver whatever its value. -/
theorem C4_no_delta_filter (a b : ℝ) (rest : List ℝ) :
    solverCalls (a :: b :: rest) = [b - a] := rfl

/-- C5 counterexample: pressing save on a measurement whose delta time
(`0.001 s`) is below the sound return time stores the rounded `(0,0,0)`
sentinel in the history — the history can reach a state containing an
invalid record, because the save button performs no validity filtering. -/
theorem C5_counterexample :
    Reachable [mkRecord 0 10 0.2 28 0.001] ∧
      (mkRecord 0 10 0.2 28 0.001).v0 = 0 ∧
      (mkRecord 0 10 0.2 28 0.001).energy = 0 ∧
      (mkRecord 0 10 0.2 28 0.001).vavg = 0 := by
  have hsent : calculate_physics 0.001 10 28 0.2 = (0, 0, 0) := by
    apply calculate_physics_nonpos
    have hpos : (0 : ℝ) < vSound 28 := vSound_pos (by norm_num)
    have hle : vSound 28 ≤ 662.8 := vSound_le_of_le (by norm_num)
    have h1 : (10 : ℝ) / 662.8 ≤ 10 / vSound 28 :=
      div_le_div_of_nonneg_left (by norm_num) hpos hle
    have h2 : (0.001 : ℝ) ≤ 10 / 662.8 := by norm_num
    linarith
  refine ⟨?_, ?_, ?_, ?_⟩
  · have h := Reachable.save [] 0 10 0.2 28 0.001 (by norm_num)
      (Or.inr (Or.inl (by norm_num))) ⟨by norm_num, by norm_num⟩ (by norm_num)
      Reachable.init
    simpa using h
  · simp [mkRecord, mkRow, hsent, roundTo]
  · simp [mkRecord, mkRow, hsent, roundTo]
  · simp [mkRecord, mkRow, hsent, roundTo]

/-- C5 (amended): every record in a reachable history was stored by the
save step from some in-range sidebar config and positive delta time — but
no validity filtering is applied, so the stored record may be the rounded
solver sentinel (see the counterexample). -/
theorem C5_history_records_from_save (h : List ShotRecord) (hr : Reachable h) :
    ∀ r ∈ h, ∃ (ts : ℕ) (dist massa suhu dt : ℝ),
      1 ≤ dist ∧
      (massa = 0.12 ∨ massa = 0.20 ∨ massa = 0.25 ∨ massa = 0.28 ∨ massa = 0.30) ∧
      10 ≤ suhu ∧ suhu ≤ 40 ∧ 0 < dt ∧ r = mkRecord ts dist massa suhu dt := by
  induction hr with
  | init =>
    intro r hmem
    simp at hmem
  | save h ts dist massa suhu dt hdist hmassa hsuhu hdt _ ih =>
    intro r hmem
    rcases List.mem_append.1 hmem with hmem | hmem
    · exact ih r hmem
    · rcases List.mem_singleton.1 hmem with rfl
      exact ⟨ts, dist, massa, suhu, dt, hdist, hmassa, hsuhu.1, hsuhu.2, hdt, rfl⟩
  | clear h _ _ =>
    intro r hmem
    simp at hmem

/-- Witness for the amended C5 on the one-record history reached by a
single save with distance 10 m, mass 0.25 g, 28 °C, delta time 1 s. -/
theorem C5_history_records_from_save_witness :
    ∃ (ts : ℕ) (dist massa suhu dt : ℝ),
      1 ≤ dist ∧
      (massa = 0.12 ∨ massa = 0.20 ∨ massa = 0.25 ∨ massa = 0.28 ∨ massa = 0.30) ∧
      10 ≤ suhu ∧ suhu ≤ 40 ∧ 0 < dt ∧
      mkRecord 0 10 0.25 28 1 = mkRecord ts dist massa suhu dt := by
  have hreach : Reachable [mkRecord 0 10 0.25 28 1] := by
    have h := Reachable.save [] 0 10 0.25 28 1 (by norm_num)
      (Or.inr (Or.inr (Or.inl (by norm_num)))) ⟨by norm_num, by norm_num⟩ (by norm_num)
      Reachable.init
    simpa using h
  exact C5_history_records_from_save _ hreach _ (List.mem_singleton.2 rfl)

/-- C6: at fixed distance, temperature and mass, the reported muzzle
velocity strictly decreases as the measured total delta time increases,
over the range where the flight time is positive. -/
theorem C6_v0_strict_anti (s t_env mass_gram dt1 dt2 : ℝ)
    (hs : 0 < s) (hm : 0 < mass_gram)
    (h1 : 0 < dt1 - s / vSound t_env) (h12 : dt1 < dt2) :
    (calculate_physics dt2 s t_env mass_gram).1 <
      (calculate_physics dt1 s t_env mass_gram).1 := by
  have h2 : 0 < dt2 - s / vSound t_env := by linarith
  rw [calculate_physics_pos h1, calculate_physics_pos h2]
  have hm' : (0 : ℝ) < mass_gram / 1000 := by positivity
  have harg : 0 < kDrag * s / (mass_gram / 1000) :=
    div_pos (mul_pos kDrag_pos hs) hm'
  have hexp : 1 < Real.exp (kDrag * s / (mass_gram / 1000)) :=
    Real.one_lt_exp_iff.2 harg
  have hN : 0 < mass_gram / 1000 * (Real.exp (kDrag * s / (mass_gram / 1000)) - 1) :=
    mul_pos hm' (by linarith)
  have hd1 : 0 < kDrag * (dt1 - s / vSound t_env) := mul_pos kDrag_pos h1
  have hdlt : kDrag * (dt1 - s / vSound t_env) < kDrag * (dt2 - s / vSound t_env) :=
    mul_lt_mul_of_pos_left (by linarith) kDrag_pos
  have hdiv := div_lt_div_of_pos_left hN hd1 hdlt
  exact mul_lt_mul_of_pos_right hdiv (by norm_num)

/-- Witness for C6: increasing the delta time from 0.05 s to 0.06 s at
10 m, 28 °C, 0.2 g strictly decreases the reported muzzle velocity. -/
theorem C6_v0_strict_anti_witness :
    (calculate_physics 0.06 10 28 0.2).1 < (calculate_physics 0.05 10 28 0.2).1 := by
  have hbase : (331.4 : ℝ) ≤ vSound 28 := vSound_ge_base (by norm_num)
  have hpos : (0 : ℝ) < vSound 28 := vSound_pos (by norm_num)
  have h1 : (10 : ℝ) / vSound 28 ≤ 10 / 331.4 :=
    div_le_div_of_nonneg_left (by norm_num) (by norm_num) hbase
  have h2 : (10 : ℝ) / 331.4 < 0.05 := by norm_num
  exact C6_v0_strict_anti 10 28 0.2 0.05 0.06 (by norm_num) (by norm_num)
    (by linarith) (by norm_num)

/-- C8: clearing the history then taking the summary yields count 0, and
the summary standard deviation of an empty or single-record history is 0. -/
theorem C8_clear_and_stddev (h : List ShotRecord) (r : ShotRecord) :
    (summary (clearHistory h)).1 = 0 ∧
      (summary ([] : List ShotRecord)).2.2 = 0 ∧
      (summary [r]).2.2 = 0 := by
  refine ⟨rfl, ?_, ?_⟩
  · simp [summary, stddevV0, meanV0]
  · simp [summary, stddevV0, meanV0]

/-- C9 counterexample: the claim that stored `ShotRecord` values are kept
at full precision fails — a solver output of `1905.14` fps is stored as
the rounded `1905.1`. -/
theorem C9_counterexample : (mkRow 0 10 0.2 1905.14 33.8 1544.0).v0 ≠ 1905.14 := by
  have hfloor : ⌊(19051.9 : ℝ)⌋ = (19051 : ℤ) :=
    Int.floor_eq_iff.2 ⟨by norm_num, by norm_num⟩
  have hround : round ((1905.14 : ℝ) * 10 ^ 1) = 19051 := by
    rw [round_eq, show (1905.14 : ℝ) * 10 ^ 1 + 1 / 2 = 19051.9 by norm_num, hfloor]
  simp only [mkRow, roundTo]
  rw [hround]
  norm_num

/-- C9 (amended): rounding is applied when the record is stored, not only
for display: the stored velocities are the multiples of 0.1 nearest the
solver outputs (within half a step, 0.05), the stored energy the multiple
of 0.01 nearest the solver output (within 0.005), and the CSV export
writes exactly the stored rounded rows. -/
theorem C9_rounding_at_append (ts : ℕ) (jarak bb v0 energy vavg : ℝ) :
    (∃ n : ℤ, (mkRow ts jarak bb v0 energy vavg).v0 = n / 10) ∧
    |(mkRow ts jarak bb v0 energy vavg).v0 - v0| ≤ 1 / 20 ∧
    (∃ n : ℤ, (mkRow ts jarak bb v0 energy vavg).energy = n / 100) ∧
    |(mkRow ts jarak bb v0 energy vavg).energy - energy| ≤ 1 / 200 ∧
    (∃ n : ℤ, (mkRow ts jarak bb v0 energy vavg).vavg = n / 10) ∧
    |(mkRow ts jarak bb v0 energy vavg).vavg - vavg| ≤ 1 / 20 ∧
    exportRows [mkRow ts jarak bb v0 energy vavg] =
      [mkRow ts jarak bb v0 energy vavg] := by
  refine ⟨⟨round (v0 * 10 ^ 1), by norm_num [mkRow, roundTo]⟩, ?_,
    ⟨round (energy * 10 ^ 2), by norm_num [mkRow, roundTo]⟩, ?_,
    ⟨round (vavg * 10 ^ 1), by norm_num [mkRow, roundTo]⟩, ?_, rfl⟩
  · have h := roundTo_err 1 v0
    rw [show (1 : ℝ) / (2 * 10 ^ 1) = 1 / 20 by norm_num] at h
    exact h
  · have h := roundTo_err 2 energy
    rw [show (1 : ℝ) / (2 * 10 ^ 2) = 1 / 200 by norm_num] at h
    exact h
  · have h := roundTo_err 1 vavg
    rw [show (1 : ℝ) / (2 * 10 ^ 1) = 1 / 20 by norm_num] at h
    exact h

/-- C10 counterexample: at ambient temperature −273.15 °C the speed of
sound evaluates to 0 and the source raises `ZeroDivisionError` on
`s / v_s`, even though the mass is positive: the divisor `v_s` is not a
positive constant on all inputs. -/
theorem C10_counterexample :
    (0 : ℝ) < 0.2 ∧ calcPhysicsChecked 1 10 (-273.15) 0.2 = none := by
  have harg : (1 : ℝ) + -273.15 / 273.15 = 0 := by norm_num
  have hv : vSound (-273.15) = 0 := by
    unfold vSound
    rw [harg, Real.sqrt_zero, mul_zero]
  refine ⟨by norm_num, ?_⟩
  unfold calcPhysicsChecked
  rw [if_neg (by rw [harg]; norm_num), if_pos hv]

/-- C10 (amended): for positive mass and temperature above −273.15 °C the
solver is total and performs no division by zero: every division has a
nonzero divisor, the sentinel branch precedes the division by
`k · t_flight`, and the checked solver returns exactly the value of
`calculate_physics`. -/
theorem C10_total_no_div_zero (dt_total s t_env mass_gram : ℝ)
    (hm : 0 < mass_gram) (ht : -273.15 < t_env) :
    calcPhysicsChecked dt_total s t_env mass_gram =
      some (calculate_physics dt_total s t_env mass_gram) := by
  have hv : 0 < vSound t_env := vSound_pos ht
  have harg : ¬ (1 + t_env / 273.15 < 0) := by
    push_neg
    have hlt : (-273.15 : ℝ) / 273.15 < t_env / 273.15 :=
      div_lt_div_of_pos_right ht (by norm_num)
    have he : (-273.15 : ℝ) / 273.15 = -1 := by norm_num
    linarith [hlt, he.le]
  have hm1000 : mass_gram / 1000 ≠ 0 := ne_of_gt (by positivity)
  unfold calcPhysicsChecked
  rw [if_neg harg, if_neg (ne_of_gt hv)]
  by_cases hf : dt_total - s / vSound t_env ≤ 0
  · rw [if_pos hf, calculate_physics_nonpos hf]
  · rw [if_neg hf, if_neg hm1000,
      if_neg (ne_of_gt (mul_pos kDrag_pos (not_le.1 hf))),
      calculate_physics_pos (not_le.1 hf)]

/-- Witness for the amended C10 at 10 m, 28 °C, 0.2 g, 0.05 s. -/
theorem C10_total_no_div_zero_witness :
    (0 : ℝ) < 0.2 ∧ (-273.15 : ℝ) < 28 ∧
      calcPhysicsChecked 0.05 10 28 0.2 = some (calculate_physics 0.05 10 28 0.2) :=
  ⟨by norm_num, by norm_num,
    C10_total_no_div_zero 0.05 10 28 0.2 (by norm_num) (by norm_num)⟩

end AudioChrono
